import Mathlib

/-!
Verification development for the PowerAutomation MCP test execution engine
(`mcp_integration_workspace/adapter/test_execution_engine/framework/test_executor.py`)
and the predictive performance analyzer
(`mcp/integrated_test_management/shared/predictive_performance.py`).

The Python code is shallowly embedded: pure computations become Lean
functions over `ℚ` (exact rationals in place of IEEE floats), the
environment-dependent parts (subprocess outcomes, thread-pool completion
order, future failures) become explicit parameters, and code that can raise
a Python exception is embedded as an `Option`-returning function where
`none` marks the raised exception.  `statistics.stdev` (the square root of
the sample variance) is embedded as `Real.sqrt` of the exact rational
sample variance; comparisons against it made by the code are decided
exactly through their squared forms, with bridging lemmas showing the
decision procedures agree with the real-number comparisons the code
performs.
-/

namespace TestExecutor

/-- Test outcome classification, the four status strings `'PASS'`,
`'FAIL'`, `'TIMEOUT'`, `'ERROR'` produced by `execute_single_test` and the
parallel scheduler's per-task exception handler. -/
inductive Status where
  | pass
  | fail
  | timeout
  | error
deriving DecidableEq, Repr

/-- A discovered test descriptor, as built by `_discover_module_tests`:
`module_name`, `module_type` (`'adapter'`/`'workflow'`), `test_type`
(`'unit'`/`'integration'`), the test file's name and its
project-root-relative path.  (`test_file` holds the basename, the only part
of the `Path` object the executor reads.) -/
structure TestInfo where
  module_name : String
  module_type : String
  test_type : String
  test_file : String
  test_path : String
deriving DecidableEq, Repr

/-- Outcome of the `subprocess.run` call inside `execute_single_test`: the
process completed with an exit code, captured output and a measured
wall-clock duration; or it hit the 300-second timeout
(`subprocess.TimeoutExpired`); or some exception was raised while launching
or running it. -/
inductive SubprocessOutcome where
  | completed (returncode : Int) (stdout stderr : String) (duration : ℚ)
  | timedOut
  | raised (msg : String)
deriving DecidableEq, Repr

/-- The `test_result` dictionary built by `execute_single_test` (and by the
parallel scheduler's exception handler).  The wall-clock `start_time` /
`end_time` ISO strings are environmental and not modelled. -/
structure ExecutionRecord where
  module_name : String
  test_type : String
  test_file : String
  test_path : String
  status : Status
  duration : ℚ
  stdout : String
  stderr : String
  return_code : Int
deriving DecidableEq, Repr

/-- `MCPTestExecutor.execute_single_test`: runs one test in a subprocess
and classifies the outcome.  Exit code 0 maps to PASS, any other exit code
to FAIL (with the measured duration), `subprocess.TimeoutExpired` to
TIMEOUT with duration 300, and any other exception to ERROR with
duration 0.  Every branch returns a record; no exception escapes. -/
def execute_single_test (t : TestInfo) (o : SubprocessOutcome) : ExecutionRecord :=
  match o with
  | .completed rc sout serr dur =>
      { module_name := t.module_name
        test_type := t.test_type
        test_file := t.test_file
        test_path := t.test_path
        status := if rc = 0 then .pass else .fail
        duration := dur
        stdout := sout
        stderr := serr
        return_code := rc }
  | .timedOut =>
      { module_name := t.module_name
        test_type := t.test_type
        test_file := t.test_file
        test_path := t.test_path
        status := .timeout
        duration := 300
        stdout := ""
        stderr := "Test execution timeout (300s)"
        return_code := -1 }
  | .raised msg =>
      { module_name := t.module_name
        test_type := t.test_type
        test_file := t.test_file
        test_path := t.test_path
        status := .error
        duration := 0
        stdout := ""
        stderr := msg
        return_code := -2 }

/-- `MCPTestExecutor.execute_tests_sequential`: run `execute_single_test`
on each descriptor in input order and accumulate the records.  `out` gives
each test's subprocess outcome. -/
def execute_tests_sequential (out : TestInfo → SubprocessOutcome)
    (test_modules : List TestInfo) : List ExecutionRecord :=
  test_modules.map (fun t => execute_single_test t (out t))

/-- The ERROR record the parallel scheduler synthesizes when a task's
future raises (`future.result()` throwing in `execute_tests_parallel`). -/
def future_error_record (t : TestInfo) (e : String) : ExecutionRecord :=
  { module_name := t.module_name
    test_type := t.test_type
    test_file := t.test_file
    test_path := t.test_path
    status := .error
    duration := 0
    stdout := ""
    stderr := "Execution error: " ++ e
    return_code := -3 }

/-- `MCPTestExecutor.execute_tests_parallel`: all descriptors are submitted
to the thread pool, and `as_completed` yields their futures in some
completion order `perm` (a permutation of the submitted descriptors).  For
each completed future the scheduler appends either the record returned by
`execute_single_test` or, if `future.result()` raised (modelled by
`raises t = some e`), a synthesized ERROR record for that descriptor. -/
def execute_tests_parallel (out : TestInfo → SubprocessOutcome)
    (raises : TestInfo → Option String) (perm : List TestInfo) : List ExecutionRecord :=
  perm.map (fun t =>
    match raises t with
    | some e => future_error_record t e
    | none => execute_single_test t (out t))

/-- The descriptor identity carried through to a record: which input test
this record reports on. -/
def recordKey (r : ExecutionRecord) : String × String × String :=
  (r.module_name, r.test_type, r.test_path)

/-- The matching identity of an input descriptor. -/
def infoKey (t : TestInfo) : String × String × String :=
  (t.module_name, t.test_type, t.test_path)

theorem recordKey_execute_single_test (t : TestInfo) (o : SubprocessOutcome) :
    recordKey (execute_single_test t o) = infoKey t := by
  cases o <;> rfl

theorem recordKey_future_error_record (t : TestInfo) (e : String) :
    recordKey (future_error_record t e) = infoKey t := by
  rfl

/-- One per-group counter block of `generate_comprehensive_report`
(`module_stats[name]` / `type_stats[kind]`): total plus one counter per
status. -/
structure GroupStats where
  total : Nat
  passed : Nat
  failed : Nat
  timeout : Nat
  error : Nat
deriving DecidableEq, Repr

/-- The fresh all-zero counter block created when a key is first seen. -/
def GroupStats.init : GroupStats := ⟨0, 0, 0, 0, 0⟩

/-- One record's contribution to its group: `total += 1` and the counter
matching the record's status `+= 1` (the `if`/`elif` chain in
`generate_comprehensive_report`). -/
def GroupStats.bump (s : GroupStats) (st : Status) : GroupStats :=
  { total := s.total + 1
    passed := if st = .pass then s.passed + 1 else s.passed
    failed := if st = .fail then s.failed + 1 else s.failed
    timeout := if st = .timeout then s.timeout + 1 else s.timeout
    error := if st = .error then s.error + 1 else s.error }

/-- Update the grouping dict at `key` with one record of status `st`: if
the key is present its counters are bumped in place, otherwise a fresh
entry is appended (Python dicts preserve insertion order, embedded as an
association list). -/
def insertStat (acc : List (String × GroupStats)) (key : String) (st : Status) :
    List (String × GroupStats) :=
  match acc with
  | [] => [(key, GroupStats.init.bump st)]
  | (k, s) :: rest =>
      if k = key then (k, s.bump st) :: rest
      else (k, s) :: insertStat rest key st

/-- The grouping loops of `generate_comprehensive_report`: fold the records
into a per-key statistics dict (`module_stats` with `keyOf = module_name`,
`type_stats` with `keyOf = test_type`). -/
def buildStats (keyOf : ExecutionRecord → String) (records : List ExecutionRecord) :
    List (String × GroupStats) :=
  records.foldl (fun acc r => insertStat acc (keyOf r) r.status) []

/-- The `execution_summary` block of the report (wall-clock
start/end/duration fields are environmental and not modelled). -/
structure ExecutionSummary where
  total_tests : Nat
  passed_tests : Nat
  failed_tests : Nat
  timeout_tests : Nat
  error_tests : Nat
  success_rate : ℚ
deriving DecidableEq, Repr

/-- One entry of `failed_tests_summary`: a non-PASS record with its error
excerpt truncated to 500 characters. -/
structure FailedSummary where
  module_name : String
  test_type : String
  test_file : String
  status : Status
  error : String
deriving DecidableEq, Repr

/-- `r['stderr'][:500] if r['stderr'] else 'No error message'`. -/
def errorExcerpt (stderr : String) : String :=
  if stderr = "" then "No error message" else stderr.take 500

/-- The `comprehensive_report` dictionary (the timestamped
`test_execution_id` string is environmental and not modelled). -/
structure ComprehensiveReport where
  execution_summary : ExecutionSummary
  module_statistics : List (String × GroupStats)
  type_statistics : List (String × GroupStats)
  detailed_results : List ExecutionRecord
  failed_tests_summary : List FailedSummary
deriving DecidableEq, Repr

/-- `MCPTestExecutor.generate_comprehensive_report`: count statuses over
the whole record list, group by module and by test type, compute
`success_rate = passed / total * 100` guarded by `total > 0`, and collect
the non-PASS records into `failed_tests_summary`. -/
def generate_comprehensive_report (test_results : List ExecutionRecord) :
    ComprehensiveReport :=
  let total_tests := test_results.length
  let passed_tests := (test_results.filter (fun r => r.status = .pass)).length
  let failed_tests := (test_results.filter (fun r => r.status = .fail)).length
  let timeout_tests := (test_results.filter (fun r => r.status = .timeout)).length
  let error_tests := (test_results.filter (fun r => r.status = .error)).length
  { execution_summary :=
      { total_tests := total_tests
        passed_tests := passed_tests
        failed_tests := failed_tests
        timeout_tests := timeout_tests
        error_tests := error_tests
        success_rate :=
          if 0 < total_tests then (passed_tests : ℚ) / (total_tests : ℚ) * 100 else 0 }
    module_statistics := buildStats (fun r => r.module_name) test_results
    type_statistics := buildStats (fun r => r.test_type) test_results
    detailed_results := test_results
    failed_tests_summary :=
      (test_results.filter
          (fun r => r.status = .fail ∨ r.status = .timeout ∨ r.status = .error)).map
        (fun r =>
          { module_name := r.module_name
            test_type := r.test_type
            test_file := r.test_file
            status := r.status
            error := errorExcerpt r.stderr }) }

/-- `MCPTestExecutor.run_all_tests`: if discovery yielded no descriptors,
return `False` immediately — no report is generated or saved (`none`).
Otherwise run the scheduler (parallel by default, with completion order
`perm` and possible future failures `raises`), generate and save the
report, and return whether no test failed, timed out or errored. -/
def run_all_tests (test_modules : List TestInfo) (parallel : Bool)
    (out : TestInfo → SubprocessOutcome) (raises : TestInfo → Option String)
    (perm : List TestInfo) : Bool × Option ComprehensiveReport :=
  if test_modules.isEmpty then (false, none)
  else
    let test_results :=
      if parallel then execute_tests_parallel out raises perm
      else execute_tests_sequential out test_modules
    let report := generate_comprehensive_report test_results
    let s := report.execution_summary
    let all_passed := s.failed_tests + s.timeout_tests + s.error_tests = 0
    (all_passed, some report)

/-- `main`: builds the executor, calls `run_all_tests` and calls
`sys.exit(1)` when it returned `False`; otherwise the process falls
through and exits 0. -/
def mainExitCode (test_modules : List TestInfo) (parallel : Bool)
    (out : TestInfo → SubprocessOutcome) (raises : TestInfo → Option String)
    (perm : List TestInfo) : Nat :=
  if (run_all_tests test_modules parallel out raises perm).1 then 0 else 1

end TestExecutor

namespace Predictive

/-- The `TrendDirection` enum of `predictive_performance.py`. -/
inductive TrendDirection where
  | improving
  | stable
  | degrading
  | volatile
deriving DecidableEq, Repr

/-- `statistics.mean`.  Python raises `StatisticsError` on an empty list;
every call site in the analyzer guards the list nonempty first, so the
total embedding (`0` on `[]`) agrees with the code on all reachable
inputs. -/
def pyMean (values : List ℚ) : ℚ :=
  values.sum / (values.length : ℚ)

/-- `min(values)` (call sites guarantee nonemptiness). -/
def pyMin (values : List ℚ) : ℚ :=
  match values with
  | [] => 0
  | a :: l => l.foldl min a

/-- `max(values)` (call sites guarantee nonemptiness). -/
def pyMax (values : List ℚ) : ℚ :=
  match values with
  | [] => 0
  | a :: l => l.foldl max a

/-- `statistics.median`: sort ascending, take the middle element for odd
length or the average of the two middle elements for even length (call
sites guarantee at least two samples). -/
def pyMedian (values : List ℚ) : ℚ :=
  let s := values.mergeSort (fun a b => decide (a ≤ b))
  let n := values.length
  if n % 2 = 1 then s.getD (n / 2) 0
  else (s.getD (n / 2 - 1) 0 + s.getD (n / 2) 0) / 2

/-- The sample variance, i.e. the square of `statistics.stdev`:
`Σ (v - mean)² / (n - 1)`.  `statistics.stdev` raises for fewer than two
samples; every call site guards `len > 1` (or `len ≥ 3`) first. -/
def sampleVar (values : List ℚ) : ℚ :=
  ((values.map (fun v => (v - pyMean values) ^ 2)).sum) / ((values.length : ℚ) - 1)

theorem sampleVar_nonneg (values : List ℚ) : 0 ≤ sampleVar values := by
  cases values with
  | nil => simp [sampleVar]
  | cons a l =>
    apply div_nonneg
    · apply List.sum_nonneg
      intro x hx
      simp only [List.mem_map] at hx
      obtain ⟨v, _, rfl⟩ := hx
      positivity
    · simp only [List.length_cons]
      push_cast
      simp only [add_sub_cancel_right]
      positivity

/-- `statistics.stdev values`, exactly: the real square root of the sample
variance (the Python code computes it in floating point). -/
noncomputable def stdDev (values : List ℚ) : ℝ :=
  Real.sqrt ((sampleVar values : ℚ) : ℝ)

/-- The coefficient of variation `std_dev / mean_value if mean_value != 0
else 0`, computed identically in `_calculate_trend_direction`,
`_calculate_stability_score` and `_identify_risk_factors`. -/
noncomputable def cvReal (values : List ℚ) : ℝ :=
  if pyMean values = 0 then 0 else stdDev values / ((pyMean values : ℚ) : ℝ)

/-- The volatility test `cv > 0.3` of `_calculate_trend_direction` (and
the variability test of `_identify_risk_factors`). -/
def cvOver30 (values : List ℚ) : Prop :=
  cvReal values > 0.3

/-- The real-number comparison `cv > 0.3` holds exactly when the mean is
positive and the sample variance exceeds `(3/10)²·mean²`; this decides the
comparison exactly in rational arithmetic. -/
theorem cvOver30_iff (values : List ℚ) :
    cvOver30 values ↔
      0 < pyMean values ∧ (3 / 10 : ℚ) ^ 2 * (pyMean values) ^ 2 < sampleVar values := by
  have hV : (0 : ℝ) ≤ ((sampleVar values : ℚ) : ℝ) := by
    exact_mod_cast sampleVar_nonneg values
  have hσ0 : (0 : ℝ) ≤ stdDev values := Real.sqrt_nonneg _
  have hσ2 : stdDev values ^ 2 = ((sampleVar values : ℚ) : ℝ) := Real.sq_sqrt hV
  constructor
  · intro h
    unfold cvOver30 cvReal at h
    by_cases hμ : pyMean values = 0
    · rw [if_pos hμ] at h
      norm_num at h
    · rw [if_neg hμ] at h
      have hμpos : (0 : ℝ) < ((pyMean values : ℚ) : ℝ) := by
        rcases lt_trichotomy ((pyMean values : ℚ) : ℝ) 0 with hlt | heq | hgt
        · exfalso
          have : stdDev values / ((pyMean values : ℚ) : ℝ) ≤ 0 :=
            div_nonpos_of_nonneg_of_nonpos hσ0 (le_of_lt hlt)
          norm_num at h
          linarith
        · exact absurd (by exact_mod_cast heq) hμ
        · exact hgt
      have hmul : (0.3 : ℝ) * ((pyMean values : ℚ) : ℝ) < stdDev values :=
        (lt_div_iff₀ hμpos).mp h
    -- square both (nonnegative) sides
      have hsq : ((0.3 : ℝ) * ((pyMean values : ℚ) : ℝ)) ^ 2 < stdDev values ^ 2 := by
        have h0 : (0 : ℝ) ≤ (0.3 : ℝ) * ((pyMean values : ℚ) : ℝ) := by positivity
        nlinarith
      rw [hσ2] at hsq
      constructor
      · exact_mod_cast hμpos
      · have : ((3 / 10 : ℚ) ^ 2 * (pyMean values) ^ 2 : ℚ) < sampleVar values := by
          have h' : ((0.3 : ℝ) * ((pyMean values : ℚ) : ℝ)) ^ 2
              = (((3 / 10 : ℚ) ^ 2 * (pyMean values) ^ 2 : ℚ) : ℝ) := by
            push_cast
            norm_num
            ring
          rw [h'] at hsq
          exact_mod_cast hsq
        exact this
  · rintro ⟨hμpos, hlt⟩
    have hμposR : (0 : ℝ) < ((pyMean values : ℚ) : ℝ) := by exact_mod_cast hμpos
    have hμ : pyMean values ≠ 0 := ne_of_gt hμpos
    unfold cvOver30 cvReal
    rw [if_neg hμ]
    rw [gt_iff_lt, lt_div_iff₀ hμposR]
    have hx0 : (0 : ℝ) ≤ (0.3 : ℝ) * ((pyMean values : ℚ) : ℝ) := by positivity
    have hsq : ((0.3 : ℝ) * ((pyMean values : ℚ) : ℝ)) ^ 2 < ((sampleVar values : ℚ) : ℝ) := by
      have h' : ((0.3 : ℝ) * ((pyMean values : ℚ) : ℝ)) ^ 2
          = (((3 / 10 : ℚ) ^ 2 * (pyMean values) ^ 2 : ℚ) : ℝ) := by
        push_cast
        norm_num
        ring
      rw [h']
      exact_mod_cast hlt
    exact (Real.lt_sqrt hx0).mpr hsq

instance (values : List ℚ) : Decidable (cvOver30 values) :=
  decidable_of_iff _ (cvOver30_iff values).symm

/-- The anomaly test of `_detect_anomalies`:
`abs(value - mean_value) > 3 * std_dev`. -/
def threeSigmaOutlier (values : List ℚ) (v : ℚ) : Prop :=
  |((v : ℚ) : ℝ) - ((pyMean values : ℚ) : ℝ)| > 3 * stdDev values

/-- The 3-sigma comparison holds exactly when the squared deviation
exceeds nine times the sample variance; this decides it exactly in
rational arithmetic. -/
theorem threeSigmaOutlier_iff (values : List ℚ) (v : ℚ) :
    threeSigmaOutlier values v ↔ 9 * sampleVar values < (v - pyMean values) ^ 2 := by
  have hV : (0 : ℝ) ≤ ((sampleVar values : ℚ) : ℝ) := by
    exact_mod_cast sampleVar_nonneg values
  have hσ0 : (0 : ℝ) ≤ stdDev values := Real.sqrt_nonneg _
  have hσ2 : stdDev values ^ 2 = ((sampleVar values : ℚ) : ℝ) := Real.sq_sqrt hV
  unfold threeSigmaOutlier
  constructor
  · intro h
    have habs : (0 : ℝ) ≤ |((v : ℚ) : ℝ) - ((pyMean values : ℚ) : ℝ)| := abs_nonneg _
    have hsq : (3 * stdDev values) ^ 2 < |((v : ℚ) : ℝ) - ((pyMean values : ℚ) : ℝ)| ^ 2 := by
      nlinarith
    rw [sq_abs] at hsq
    have : ((9 * sampleVar values : ℚ) : ℝ) < (((v - pyMean values) ^ 2 : ℚ) : ℝ) := by
      push_cast
      nlinarith
    exact_mod_cast this
  · intro h
    have hR : ((9 * sampleVar values : ℚ) : ℝ) < (((v - pyMean values) ^ 2 : ℚ) : ℝ) := by
      exact_mod_cast h
    have hsq : (3 * stdDev values) ^ 2 < (((v : ℚ) : ℝ) - ((pyMean values : ℚ) : ℝ)) ^ 2 := by
      push_cast at hR
      nlinarith
    have h2 : (3 * stdDev values) ^ 2
        < |((v : ℚ) : ℝ) - ((pyMean values : ℚ) : ℝ)| ^ 2 := by
      rw [sq_abs]
      exact hsq
    exact lt_of_pow_lt_pow_left₀ 2 (abs_nonneg _) h2

instance (values : List ℚ) (v : ℚ) : Decidable (threeSigmaOutlier values v) :=
  decidable_of_iff _ (threeSigmaOutlier_iff values v).symm

/-- The inline least-squares regression over index-ordered samples in
`_calculate_trend_direction` (`x = range(n)`).  The division is unguarded
in the source; it is only ever reached with `n ≥ 3` (the function returns
STABLE earlier otherwise), where the denominator `n·Σx² − (Σx)²` is
strictly positive, so the total `ℚ` division agrees with the code on all
reachable inputs. -/
def trendSlope (values : List ℚ) : ℚ :=
  let n := values.length
  let x := (List.range n).map (fun i => (i : ℚ))
  let sum_x := x.sum
  let sum_y := values.sum
  let sum_xy := ((x.zip values).map (fun p => p.1 * p.2)).sum
  let sum_x2 := (x.map (fun v => v ^ 2)).sum
  ((n : ℚ) * sum_xy - sum_x * sum_y) / ((n : ℚ) * sum_x2 - sum_x ^ 2)

/-- `PredictivePerformanceAnalyzer._calculate_trend_direction`: fewer than
3 samples is reported STABLE; otherwise `cv > 0.3` wins (VOLATILE), then
`slope > 0.1` (IMPROVING), then `slope < -0.1` (DEGRADING), else
STABLE. -/
def _calculate_trend_direction (values : List ℚ) : TrendDirection :=
  if values.length < 3 then .stable
  else
    let slope := trendSlope values
    if cvOver30 values then .volatile
    else if slope > 1 / 10 then .improving
    else if slope < -(1 / 10) then .degrading
    else .stable

/-- One entry of the anomaly list built by `_detect_anomalies`. -/
structure Anomaly where
  index : Nat
  value : ℚ
  deviation : ℚ
  type : String
deriving DecidableEq, Repr

/-- `PredictivePerformanceAnalyzer._detect_anomalies`: below 3 samples the
list is empty; otherwise every sample whose absolute deviation from the
mean exceeds `3 * std_dev` is flagged, tagged `high` when above the mean
and `low` otherwise. -/
def _detect_anomalies (values : List ℚ) : List Anomaly :=
  if values.length < 3 then []
  else
    values.enum.filterMap (fun p =>
      if threeSigmaOutlier values p.2 then
        some { index := p.1
               value := p.2
               deviation := |p.2 - pyMean values|
               type := if p.2 > pyMean values then "high" else "low" }
      else none)

/-- `PredictivePerformanceAnalyzer._calculate_stability_score`:
`min(100, max(0, 100 - cv*100))`, with 100 returned below 2 samples. -/
noncomputable def _calculate_stability_score (values : List ℚ) : ℝ :=
  if values.length < 2 then 100
  else min 100 (max 0 (100 - cvReal values * 100))

/-- The statistics dictionary returned by `analyze_performance_trends`
when at least 2 samples are in the window.  The `trend_analysis`
description string (Chinese text with `:.1f`-formatted floats) is
presentation only and not modelled. -/
structure TrendStats where
  data_points : Nat
  trend_direction : TrendDirection
  mean : ℚ
  median : ℚ
  std_dev : ℝ
  min : ℚ
  max : ℚ
  range : ℚ
  change_rate_percent : ℚ
  stability_score : ℝ
  anomalies_count : Nat
  anomalies : List Anomaly
  latest_value : ℚ

/-- Result of `analyze_performance_trends`: either the explicit
`insufficient_data` sentinel dictionary or the full statistics
dictionary. -/
inductive TrendResult where
  | insufficientData
  | stats (s : TrendStats)

/-- `PredictivePerformanceAnalyzer.analyze_performance_trends` on the
samples already filtered to the metric's time window (`values`, oldest
first).  Fewer than 2 samples returns the `insufficient_data` sentinel.
Otherwise the statistics are computed; the change-rate expression
`(values[-1] - values[0]) / values[0] * 100` is the one place that can
raise (`ZeroDivisionError` when the earliest sample is 0), embedded as
`none`.  All other computations on this path are total, so hoisting the
check does not change the observable result. -/
noncomputable def analyze_performance_trends (values : List ℚ) : Option TrendResult :=
  if values.length < 2 then some .insufficientData
  else if values.headI = 0 then none
  else
    some (.stats
      { data_points := values.length
        trend_direction := _calculate_trend_direction values
        mean := pyMean values
        median := pyMedian values
        std_dev := if 1 < values.length then stdDev values else 0
        min := pyMin values
        max := pyMax values
        range := pyMax values - pyMin values
        change_rate_percent := (values.getLastD 0 - values.headI) / values.headI * 100
        stability_score := _calculate_stability_score values
        anomalies_count := (_detect_anomalies values).length
        anomalies := _detect_anomalies values
        latest_value := values.getLastD 0 })

/-- `values[-k:]` for `k > 0`: the last `k` elements (the whole list when
it is shorter than `k`). -/
def lastN (k : Nat) (l : List ℚ) : List ℚ :=
  l.drop (l.length - k)

/-- `PredictivePerformanceAnalyzer._calculate_slope`: least-squares slope
of `y` against `x`, returning 0 below 2 points or when the denominator is
zero. -/
def _calculate_slope (x : List ℚ) (y : List ℚ) : ℚ :=
  let n := x.length
  if n < 2 then 0
  else
    let sum_x := x.sum
    let sum_y := y.sum
    let sum_xy := ((x.zip y).map (fun p => p.1 * p.2)).sum
    let sum_x2 := (x.map (fun v => v ^ 2)).sum
    let denominator := (n : ℚ) * sum_x2 - sum_x ^ 2
    if denominator = 0 then 0
    else ((n : ℚ) * sum_xy - sum_x * sum_y) / denominator

/-- The `performance_thresholds` configuration: metric name ↦
(warning, critical). -/
def performance_thresholds (metric_name : String) : Option (ℚ × ℚ) :=
  if metric_name = "execution_time" then some (30, 60)
  else if metric_name = "memory_usage" then some (80, 95)
  else if metric_name = "cpu_usage" then some (70, 90)
  else if metric_name = "test_success_rate" then some (90, 80)
  else if metric_name = "response_time" then some (2, 5)
  else if metric_name = "throughput" then some (100, 50)
  else none

/-- The metrics for which a higher value is worse (threshold comparison
direction in `_identify_risk_factors` and `_identify_bottlenecks`). -/
def higherIsWorse : List String :=
  ["execution_time", "memory_usage", "cpu_usage", "response_time"]

/-- `PredictivePerformanceAnalyzer._identify_risk_factors`: below 5
samples only the data-shortfall marker; otherwise the recent-trend check
on the last 5 samples, the threshold-proximity check on the latest value,
and the variability check `cv > 0.3`. -/
def _identify_risk_factors (values : List ℚ) (metric_name : String) : List String :=
  if values.length < 5 then ["历史数据不足"]
  else
    (match _calculate_trend_direction (lastN 5 values) with
     | .degrading => ["近期性能下降趋势"]
     | .volatile => ["性能波动较大"]
     | _ => [])
    ++
    (match performance_thresholds metric_name with
     | none => []
     | some (warning, critical) =>
        let current := values.getLastD 0
        if metric_name ∈ higherIsWorse then
          if current ≥ critical then ["已达到关键阈值"]
          else if current ≥ warning then ["接近警告阈值"]
          else []
        else
          if current ≤ critical then ["已达到关键阈值"]
          else if current ≤ warning then ["接近警告阈值"]
          else [])
    ++
    (if 1 < values.length then
       if cvOver30 values then ["性能变异性过高"] else []
     else [])

/-- The `PerformancePrediction` dataclass.  Predicted points are kept as
(hour offset, value) pairs — the code stamps each with
`now + timedelta(hours=hour)`, which is environmental.  The
`trend_analysis` description string (formatted floats) is presentation
only and not modelled. -/
structure PerformancePrediction where
  metric_name : String
  current_value : ℚ
  predicted_values : List (Nat × ℚ)
  confidence_interval : ℝ × ℝ
  risk_factors : List String

/-- `PredictivePerformanceAnalyzer.predict_future_performance` on the
samples already filtered to the 168-hour lookback window (`values`, oldest
first).  Below 10 samples: the explicit insufficient-data prediction with
the shortfall risk factor.  Otherwise: a moving average over the most
recent `min(10, n)` samples, a least-squares slope over the most recent 5,
one linear extrapolation per requested hour, and a single static
confidence interval `moving_avg ± 1.96 * stdev(values)`. -/
noncomputable def predict_future_performance (metric_name : String)
    (values : List ℚ) (prediction_hours : Nat) : PerformancePrediction :=
  if values.length < 10 then
    { metric_name := metric_name
      current_value := 0
      predicted_values := []
      confidence_interval := (0, 0)
      risk_factors := ["历史数据不足"] }
  else
    let current_value := values.getLastD 0
    let window_size := min 10 values.length
    let recent_values := lastN window_size values
    let moving_avg := pyMean recent_values
    let slope :=
      if 5 ≤ values.length then
        _calculate_slope ((List.range (lastN 5 values).length).map (fun i => (i : ℚ)))
          (lastN 5 values)
      else 0
    let predicted_values :=
      (List.range prediction_hours).map
        (fun h => ((h + 1 : Nat), moving_avg + slope * (((h + 1 : Nat) : ℚ))))
    let confidence_interval : ℝ × ℝ :=
      if 1 < values.length then
        (((moving_avg : ℚ) : ℝ) - 1.96 * stdDev values,
         ((moving_avg : ℚ) : ℝ) + 1.96 * stdDev values)
      else (((current_value : ℚ) : ℝ), ((current_value : ℚ) : ℝ))
    { metric_name := metric_name
      current_value := current_value
      predicted_values := predicted_values
      confidence_interval := confidence_interval
      risk_factors := _identify_risk_factors values metric_name }

end Predictive

namespace TestExecutor

/-- Sum of the `total` counters over a statistics dict. -/
def sumTotals (stats : List (String × GroupStats)) : Nat :=
  (stats.map (fun p => p.2.total)).sum

/-- A counter block whose four status counters sum to its total. -/
def GroupStats.balanced (s : GroupStats) : Prop :=
  s.passed + s.failed + s.timeout + s.error = s.total

theorem sumTotals_insertStat (acc : List (String × GroupStats)) (key : String) (st : Status) :
    sumTotals (insertStat acc key st) = sumTotals acc + 1 := by
  induction acc with
  | nil => simp [insertStat, sumTotals, GroupStats.bump, GroupStats.init]
  | cons p rest ih =>
    obtain ⟨k, s⟩ := p
    by_cases h : k = key
    · simp only [insertStat, if_pos h, sumTotals, List.map_cons, List.sum_cons,
        GroupStats.bump]
      omega
    · simp only [insertStat, if_neg h, sumTotals, List.map_cons, List.sum_cons] at ih ⊢
      omega

theorem balanced_bump {s : GroupStats} (h : s.balanced) (st : Status) :
    (s.bump st).balanced := by
  cases st <;> simp_all [GroupStats.balanced, GroupStats.bump] <;> omega

theorem balanced_insertStat {acc : List (String × GroupStats)}
    (h : ∀ p ∈ acc, GroupStats.balanced p.2) (key : String) (st : Status) :
    ∀ p ∈ insertStat acc key st, GroupStats.balanced p.2 := by
  induction acc with
  | nil =>
    intro p hp
    simp only [insertStat, List.mem_singleton] at hp
    subst hp
    exact balanced_bump (by simp [GroupStats.balanced, GroupStats.init]) st
  | cons q rest ih =>
    obtain ⟨k, s⟩ := q
    intro p hp
    by_cases hk : k = key
    · simp only [insertStat, if_pos hk, List.mem_cons] at hp
      rcases hp with rfl | hp
      · exact balanced_bump (h (k, s) (List.mem_cons_self _ _)) st
      · exact h p (List.mem_cons_of_mem _ hp)
    · simp only [insertStat, if_neg hk, List.mem_cons] at hp
      rcases hp with rfl | hp
      · exact h (k, s) (List.mem_cons_self _ _)
      · exact ih (fun q hq => h q (List.mem_cons_of_mem _ hq)) p hp

theorem sumTotals_buildStats_aux (keyOf : ExecutionRecord → String)
    (records : List ExecutionRecord) :
    ∀ acc, sumTotals (records.foldl (fun a r => insertStat a (keyOf r) r.status) acc)
      = sumTotals acc + records.length := by
  induction records with
  | nil => intro acc; simp
  | cons r t ih =>
    intro acc
    simp only [List.foldl_cons, List.length_cons]
    rw [ih, sumTotals_insertStat]
    omega

/-- The grouped totals sum to the number of records. -/
theorem sumTotals_buildStats (keyOf : ExecutionRecord → String)
    (records : List ExecutionRecord) :
    sumTotals (buildStats keyOf records) = records.length := by
  have := sumTotals_buildStats_aux keyOf records []
  simpa [buildStats, sumTotals] using this

theorem balanced_buildStats_aux (keyOf : ExecutionRecord → String)
    (records : List ExecutionRecord) :
    ∀ acc, (∀ p ∈ acc, GroupStats.balanced p.2) →
      ∀ p ∈ records.foldl (fun a r => insertStat a (keyOf r) r.status) acc,
        GroupStats.balanced p.2 := by
  induction records with
  | nil => intro acc h; simpa using h
  | cons r t ih =>
    intro acc h
    simp only [List.foldl_cons]
    exact ih _ (balanced_insertStat h _ _)

/-- Every group's four status counters sum to its total. -/
theorem balanced_buildStats (keyOf : ExecutionRecord → String)
    (records : List ExecutionRecord) :
    ∀ p ∈ buildStats keyOf records, GroupStats.balanced p.2 :=
  balanced_buildStats_aux keyOf records [] (by simp)

/-- Each record has exactly one of the four statuses, so the four filtered
counts partition the record list. -/
theorem status_filter_partition (l : List ExecutionRecord) :
    (l.filter (fun r => r.status = Status.pass)).length
    + (l.filter (fun r => r.status = Status.fail)).length
    + (l.filter (fun r => r.status = Status.timeout)).length
    + (l.filter (fun r => r.status = Status.error)).length = l.length := by
  induction l with
  | nil => rfl
  | cons r t ih =>
    cases hr : r.status <;> simp [List.filter_cons, hr] <;> omega

end TestExecutor

open TestExecutor

/-- A concrete discovered descriptor, used to instantiate witnesses. -/
def tInfoA : TestInfo :=
  { module_name := "cloud_search_mcp"
    module_type := "adapter"
    test_type := "unit"
    test_file := "test_cloud_search_mcp.py"
    test_path := "mcp/adapter/cloud_search_mcp/unit_tests/test_cloud_search_mcp.py" }

/-- A second concrete descriptor. -/
def tInfoB : TestInfo :=
  { module_name := "local_model_mcp"
    module_type := "adapter"
    test_type := "integration"
    test_file := "test_local_model_mcp.py"
    test_path := "mcp/adapter/local_model_mcp/integration_tests/test_local_model_mcp.py" }

/-- An environment where every test subprocess exits 0 after one second. -/
def outcomeAllPass : TestInfo → SubprocessOutcome := fun _ => .completed 0 "" "" 1

/-- A pool in which only `tInfoB`'s future raises. -/
def raisesOnB : TestInfo → Option String :=
  fun t => if t = tInfoB then some "pool failure" else none

/-- C1: for any N discovered descriptors both schedulers return exactly N
records, one per input descriptor with no drops and no duplicates —
sequentially in input order, in parallel as a permutation of the
per-descriptor records for any completion order; a descriptor whose
future raises still yields an ERROR record for that descriptor. -/
theorem scheduler_completeness (test_modules perm : List TestInfo)
    (out : TestInfo → SubprocessOutcome) (raises : TestInfo → Option String)
    (hperm : perm.Perm test_modules) :
    (execute_tests_sequential out test_modules).length = test_modules.length
    ∧ (execute_tests_sequential out test_modules).map recordKey = test_modules.map infoKey
    ∧ (execute_tests_parallel out raises perm).length = test_modules.length
    ∧ ((execute_tests_parallel out raises perm).map recordKey).Perm
        (test_modules.map infoKey)
    ∧ (∀ t ∈ perm, ∀ e, raises t = some e →
        ∃ r ∈ execute_tests_parallel out raises perm,
          recordKey r = infoKey t ∧ r.status = .error) := by
  have hmap : (execute_tests_parallel out raises perm).map recordKey
      = perm.map infoKey := by
    simp only [execute_tests_parallel, List.map_map]
    apply List.map_congr_left
    intro t _
    simp only [Function.comp]
    cases h : raises t
    · simp only [recordKey_execute_single_test]
    · simp only [recordKey_future_error_record]
  refine ⟨by simp [execute_tests_sequential], ?_, ?_, ?_, ?_⟩
  · simp [execute_tests_sequential, List.map_map, Function.comp,
      recordKey_execute_single_test]
  · simp [execute_tests_parallel, hperm.length_eq]
  · rw [hmap]
    exact hperm.map infoKey
  · intro t ht e he
    refine ⟨future_error_record t e, ?_, recordKey_future_error_record t e, rfl⟩
    have hmem := List.mem_map_of_mem
      (fun t => match raises t with
        | some e => future_error_record t e
        | none => execute_single_test t (out t)) ht
    have harg : (fun t => match raises t with
        | some e => future_error_record t e
        | none => execute_single_test t (out t)) t = future_error_record t e := by
      simp only [he]
    rw [harg] at hmem
    exact hmem

/-- C1 witness: two descriptors run in swapped completion order with one
future raising; the records are still one per descriptor and the raising
one is an ERROR record. -/
theorem scheduler_completeness_witness :
    ((execute_tests_parallel outcomeAllPass raisesOnB [tInfoB, tInfoA]).map recordKey).Perm
        ([tInfoA, tInfoB].map infoKey)
    ∧ ∃ r ∈ execute_tests_parallel outcomeAllPass raisesOnB [tInfoB, tInfoA],
        recordKey r = infoKey tInfoB ∧ r.status = .error := by
  have h := scheduler_completeness [tInfoA, tInfoB] [tInfoB, tInfoA]
    outcomeAllPass raisesOnB (List.Perm.swap _ _ _)
  exact ⟨h.2.2.2.1,
    h.2.2.2.2 tInfoB (by simp) "pool failure" (by simp [raisesOnB])⟩

/-- C2: execute_single_test is a total function of the subprocess outcome
(always exactly one record, never a propagated exception) and its status
classification is exhaustive: exit code 0 ↦ PASS, nonzero ↦ FAIL, timeout
↦ TIMEOUT with duration equal to the 300-second ceiling, any launch/run
exception ↦ ERROR with duration 0. -/
theorem single_test_total_classification (t : TestInfo) (o : SubprocessOutcome) :
    (execute_single_test t o).status =
      (match o with
        | .completed rc _ _ _ => if rc = 0 then Status.pass else Status.fail
        | .timedOut => Status.timeout
        | .raised _ => Status.error)
    ∧ (o = .timedOut → (execute_single_test t o).duration = 300)
    ∧ (∀ e, o = .raised e → (execute_single_test t o).duration = 0) := by
  refine ⟨?_, ?_, ?_⟩
  · cases o <;> rfl
  · rintro rfl
    rfl
  · rintro e rfl
    rfl

/-- C2 witness: the timeout outcome at a concrete descriptor. -/
theorem single_test_total_classification_witness :
    (execute_single_test tInfoA .timedOut).status = Status.timeout
    ∧ (execute_single_test tInfoA .timedOut).duration = 300 := by
  have h := single_test_total_classification tInfoA .timedOut
  exact ⟨h.1, h.2.1 rfl⟩

/-- C3: in every generated report the per-module totals and the per-type
totals each sum to `execution_summary.total_tests`, which equals
`detailed_results.length`; inside every group, and in the summary, the
passed/failed/timeout/error counters sum to the corresponding total. -/
theorem report_count_invariants (records : List ExecutionRecord) :
    sumTotals (generate_comprehensive_report records).module_statistics
        = (generate_comprehensive_report records).execution_summary.total_tests
    ∧ sumTotals (generate_comprehensive_report records).type_statistics
        = (generate_comprehensive_report records).execution_summary.total_tests
    ∧ (generate_comprehensive_report records).execution_summary.total_tests
        = (generate_comprehensive_report records).detailed_results.length
    ∧ (∀ p ∈ (generate_comprehensive_report records).module_statistics,
        p.2.passed + p.2.failed + p.2.timeout + p.2.error = p.2.total)
    ∧ (∀ p ∈ (generate_comprehensive_report records).type_statistics,
        p.2.passed + p.2.failed + p.2.timeout + p.2.error = p.2.total)
    ∧ (generate_comprehensive_report records).execution_summary.passed_tests
        + (generate_comprehensive_report records).execution_summary.failed_tests
        + (generate_comprehensive_report records).execution_summary.timeout_tests
        + (generate_comprehensive_report records).execution_summary.error_tests
        = (generate_comprehensive_report records).execution_summary.total_tests := by
  refine ⟨?_, ?_, rfl, ?_, ?_, ?_⟩
  · exact sumTotals_buildStats _ records
  · exact sumTotals_buildStats _ records
  · exact fun p hp => balanced_buildStats _ records p hp
  · exact fun p hp => balanced_buildStats _ records p hp
  · exact status_filter_partition records

/-- C4: success_rate equals 100·passed/total whenever the report holds at
least one record and equals 0 for an empty record list; the division is
guarded by `total_tests > 0`, never raising. -/
theorem success_rate_guarded (records : List ExecutionRecord) :
    ((generate_comprehensive_report records).execution_summary.total_tests = 0 →
        (generate_comprehensive_report records).execution_summary.success_rate = 0)
    ∧ (1 ≤ (generate_comprehensive_report records).execution_summary.total_tests →
        (generate_comprehensive_report records).execution_summary.success_rate
          = 100 * ((generate_comprehensive_report
                records).execution_summary.passed_tests : ℚ)
            / ((generate_comprehensive_report
                records).execution_summary.total_tests : ℚ)) := by
  have hval : (generate_comprehensive_report records).execution_summary.success_rate
      = if 0 < records.length
        then ((records.filter (fun r => r.status = Status.pass)).length : ℚ)
          / (records.length : ℚ) * 100
        else 0 := rfl
  constructor
  · intro h
    have hlen : records.length = 0 := h
    rw [hval, if_neg (by omega)]
  · intro h
    have hlen : 0 < records.length := h
    show _ = 100 * ((records.filter (fun r => r.status = Status.pass)).length : ℚ)
        / (records.length : ℚ)
    rw [hval, if_pos hlen, div_mul_eq_mul_div, mul_comm]

/-- C4 witness: a one-record report of a passing test. -/
theorem success_rate_guarded_witness :
    (generate_comprehensive_report
        [execute_single_test tInfoA (.completed 0 "" "" 1)]).execution_summary.success_rate
      = 100 * ((generate_comprehensive_report
          [execute_single_test tInfoA
            (.completed 0 "" "" 1)]).execution_summary.passed_tests : ℚ)
        / ((generate_comprehensive_report
          [execute_single_test tInfoA
            (.completed 0 "" "" 1)]).execution_summary.total_tests : ℚ) :=
  (success_rate_guarded _).2 (by decide)

/-- C10: when discovery yields zero descriptors, run_all_tests returns
False without generating or saving any report, so main exits with
code 1. -/
theorem empty_discovery_returns_false (parallel : Bool)
    (out : TestInfo → SubprocessOutcome) (raises : TestInfo → Option String)
    (perm : List TestInfo) (test_modules : List TestInfo) (h : test_modules = []) :
    run_all_tests test_modules parallel out raises perm = (false, none)
    ∧ mainExitCode test_modules parallel out raises perm = 1 := by
  subst h
  exact ⟨rfl, rfl⟩

/-- C10 witness: the empty discovery result. -/
theorem empty_discovery_returns_false_witness :
    run_all_tests [] true outcomeAllPass raisesOnB [] = (false, none)
    ∧ mainExitCode [] true outcomeAllPass raisesOnB [] = 1 :=
  empty_discovery_returns_false true outcomeAllPass raisesOnB [] [] rfl

open Predictive

/-- C5 counterexample: the two-sample window [1, 7] has coefficient of
variation √18/4 ≈ 1.06 > 0.3, yet `_calculate_trend_direction` classifies
it STABLE, not VOLATILE — every window of fewer than 3 samples returns
STABLE before the volatility test is reached. -/
theorem two_sample_high_cv_not_volatile :
    (([1, 7] : List ℚ).length = 2)
    ∧ cvOver30 [1, 7]
    ∧ _calculate_trend_direction [1, 7] = .stable := by
  refine ⟨rfl, ?_, rfl⟩
  rw [cvOver30_iff]
  constructor
  · norm_num [pyMean]
  · norm_num [pyMean, sampleVar]

/-- C5 (amended): for every window of at least 3 samples, cv > 0.3 forces
the classification VOLATILE — the volatility test takes strict precedence
over the slope tests, whatever the slope. -/
theorem volatility_precedence (values : List ℚ) (h3 : 3 ≤ values.length)
    (hcv : cvOver30 values) : _calculate_trend_direction values = .volatile := by
  unfold _calculate_trend_direction
  rw [if_neg (by omega)]
  show (if cvOver30 values then TrendDirection.volatile
    else if trendSlope values > 1 / 10 then TrendDirection.improving
    else if trendSlope values < -(1 / 10) then TrendDirection.degrading
    else TrendDirection.stable) = TrendDirection.volatile
  rw [if_pos hcv]

theorem trendSlope_eval_123 : trendSlope ([1, 2, 3] : List ℚ) = 1 := by
  have hr : List.range ([1, 2, 3] : List ℚ).length = [0, 1, 2] := rfl
  simp only [trendSlope, hr]
  norm_num [List.zip_cons_cons, List.zip_nil_right]

/-- C5 witness: [1, 2, 3] has cv = 1/2 > 0.3 and least-squares slope 1 >
0.1, and is classified VOLATILE, not IMPROVING. -/
theorem volatility_precedence_witness :
    trendSlope [1, 2, 3] > 1 / 10
    ∧ _calculate_trend_direction ([1, 2, 3] : List ℚ) = .volatile := by
  refine ⟨by rw [trendSlope_eval_123]; norm_num, ?_⟩
  exact volatility_precedence [1, 2, 3] (by decide)
    (by rw [cvOver30_iff]; constructor
        · norm_num [pyMean]
        · norm_num [pyMean, sampleVar])

/-- C6: a metric window of 0 or 1 samples yields the explicit
insufficient_data sentinel — never an exception (the result is `some`) and
never a numeric statistics result. -/
theorem insufficient_data_sentinel (values : List ℚ) (h : values.length < 2) :
    analyze_performance_trends values = some .insufficientData
    ∧ analyze_performance_trends values ≠ none
    ∧ ∀ s, analyze_performance_trends values ≠ some (.stats s) := by
  have heq : analyze_performance_trends values = some .insufficientData := by
    unfold analyze_performance_trends
    rw [if_pos h]
  refine ⟨heq, by rw [heq]; simp, fun s => by rw [heq]; simp⟩

/-- C6 witness: the empty window and a one-sample window. -/
theorem insufficient_data_sentinel_witness :
    analyze_performance_trends [] = some .insufficientData
    ∧ analyze_performance_trends [(5 : ℚ)] = some .insufficientData :=
  ⟨(insufficient_data_sentinel [] (by decide)).1,
   (insufficient_data_sentinel [5] (by decide)).1⟩

/-- The spec's synthetic anomaly series: nine samples of 10 and one
of 1000. -/
def spikeSeries : List ℚ := [10, 10, 10, 10, 10, 10, 10, 10, 10, 1000]

theorem pyMean_spikeSeries : pyMean spikeSeries = 109 := by
  norm_num [pyMean, spikeSeries]

theorem sampleVar_spikeSeries : sampleVar spikeSeries = 98010 := by
  norm_num [sampleVar, spikeSeries, pyMean]

theorem detect_anomalies_spikeSeries : _detect_anomalies spikeSeries = [] := by
  unfold _detect_anomalies
  rw [if_neg (by simp [spikeSeries])]
  rw [List.filterMap_eq_nil_iff]
  intro p hp
  apply if_neg
  rw [threeSigmaOutlier_iff, sampleVar_spikeSeries, pyMean_spikeSeries]
  have hv : p.2 ∈ spikeSeries := by
    have := List.mem_map_of_mem Prod.snd hp
    rwa [List.enum_map_snd] at this
  simp only [spikeSeries, List.mem_cons, List.not_mem_nil, or_false] at hv
  rcases hv with h | h | h | h | h | h | h | h | h | h <;> rw [h] <;> norm_num

/-- C7 counterexample: on the nine-10s-one-1000 series the detector flags
nothing at all — the mean is 109, the sample stdev is √98010 ≈ 313.1 and
|1000 − 109| = 891 does not exceed 3·stdev ≈ 939.2 — in particular it does
not flag the claimed single `high` anomaly at 1000. -/
theorem spike_series_no_anomaly :
    _detect_anomalies spikeSeries = []
    ∧ ¬ ∃ a ∈ _detect_anomalies spikeSeries, a.value = 1000 := by
  refine ⟨detect_anomalies_spikeSeries, ?_⟩
  rw [detect_anomalies_spikeSeries]
  simp

/-- Every sample of a window with zero sample variance equals the mean. -/
theorem eq_mean_of_sampleVar_eq_zero {values : List ℚ} (h2 : 2 ≤ values.length)
    (hσ : sampleVar values = 0) : ∀ v ∈ values, v = pyMean values := by
  intro v hv
  have hd : ((values.length : ℚ) - 1) ≠ 0 := by
    have h2' : (2 : ℚ) ≤ (values.length : ℚ) := by exact_mod_cast h2
    intro hc
    rw [sub_eq_zero] at hc
    rw [hc] at h2'
    norm_num at h2'
  have hS : (values.map (fun v => (v - pyMean values) ^ 2)).sum = 0 := by
    rcases div_eq_zero_iff.mp hσ with h | h
    · exact h
    · exact absurd h hd
  have hmem : (v - pyMean values) ^ 2 ∈ values.map (fun v => (v - pyMean values) ^ 2) :=
    List.mem_map_of_mem _ hv
  have hle : (v - pyMean values) ^ 2 ≤ 0 := by
    have := List.single_le_sum (l := values.map (fun v => (v - pyMean values) ^ 2))
      (fun x hx => by
        obtain ⟨w, _, rfl⟩ := List.mem_map.mp hx
        positivity) _ hmem
    rw [hS] at this
    exact this
  have hz : (v - pyMean values) ^ 2 = 0 := le_antisymm hle (by positivity)
  have h0 : v - pyMean values = 0 :=
    (pow_eq_zero_iff (by norm_num : (2 : ℕ) ≠ 0)).mp hz
  exact sub_eq_zero.mp h0

/-- C7 (amended): the detector flags no anomaly on the
nine-10s-one-1000 series, and any window with zero sample variance (in
particular any window of equal samples) yields an empty anomaly list; the
test involves no division at all. -/
theorem anomaly_detector_empty (values : List ℚ) (hσ : sampleVar values = 0) :
    _detect_anomalies values = [] ∧ _detect_anomalies spikeSeries = [] := by
  refine ⟨?_, detect_anomalies_spikeSeries⟩
  unfold _detect_anomalies
  by_cases h3 : values.length < 3
  · rw [if_pos h3]
  · rw [if_neg h3]
    rw [List.filterMap_eq_nil_iff]
    intro p hp
    rw [if_neg]
    intro hout
    rw [threeSigmaOutlier_iff, hσ] at hout
    have hv : p.2 ∈ values := by
      have := List.mem_map_of_mem Prod.snd hp
      rwa [List.enum_map_snd] at this
    have := eq_mean_of_sampleVar_eq_zero (by omega) hσ p.2 hv
    rw [this] at hout
    norm_num at hout

/-- C7 witness: a constant window has zero sample variance and no
anomalies. -/
theorem anomaly_detector_empty_witness :
    sampleVar [5, 5, 5] = 0
    ∧ _detect_anomalies [5, 5, 5] = []
    ∧ _detect_anomalies spikeSeries = [] := by
  have hσ : sampleVar ([5, 5, 5] : List ℚ) = 0 := by
    norm_num [sampleVar, pyMean]
  have h := anomaly_detector_empty [5, 5, 5] hσ
  exact ⟨hσ, h.1, h.2⟩

/-- Ten equal samples, a concrete window for the prediction witness. -/
def tenFours : List ℚ := [4, 4, 4, 4, 4, 4, 4, 4, 4, 4]

/-- C8: below 10 samples the prediction is the explicit insufficient-data
result carrying the shortfall risk factor (no exception, no predicted
points); with at least 10 samples the h-th predicted point (h = 1..horizon)
is `moving_average + slope·h` with moving_average the mean of the most
recent min(10, N) samples and slope the least-squares slope of the most
recent 5 samples, and the single static confidence interval is
`moving_average ± 1.96·stdev` for the whole horizon. -/
theorem prediction_structure (metric_name : String) (values : List ℚ)
    (prediction_hours : Nat) :
    (values.length < 10 →
      (predict_future_performance metric_name values prediction_hours).predicted_values = []
      ∧ "历史数据不足"
          ∈ (predict_future_performance metric_name values prediction_hours).risk_factors)
    ∧ (10 ≤ values.length →
      (predict_future_performance metric_name values
          prediction_hours).predicted_values.length = prediction_hours
      ∧ (∀ h, h < prediction_hours →
          (predict_future_performance metric_name values
              prediction_hours).predicted_values.getD h (0, 0)
            = (h + 1, pyMean (lastN (min 10 values.length) values)
                + _calculate_slope
                    ((List.range (lastN 5 values).length).map (fun i => (i : ℚ)))
                    (lastN 5 values) * ((h + 1 : Nat) : ℚ)))
      ∧ (predict_future_performance metric_name values
            prediction_hours).confidence_interval
          = (((pyMean (lastN (min 10 values.length) values) : ℚ) : ℝ)
                - 1.96 * stdDev values,
             ((pyMean (lastN (min 10 values.length) values) : ℚ) : ℝ)
                + 1.96 * stdDev values)) := by
  constructor
  · intro h
    unfold predict_future_performance
    rw [if_pos h]
    refine ⟨rfl, ?_⟩
    show "历史数据不足" ∈ ["历史数据不足"]
    exact List.mem_singleton_self _
  · intro h
    have h10 : ¬ values.length < 10 := by omega
    have h5 : 5 ≤ values.length := by omega
    have h1 : 1 < values.length := by omega
    simp only [predict_future_performance, if_neg h10, if_pos h5, if_pos h1]
    refine ⟨by simp, ?_, trivial⟩
    intro hh hlt
    rw [List.getD_eq_getElem?_getD, List.getElem?_map, List.getElem?_range hlt]
    rfl

/-- C8 witness: a 10-sample window with horizon 2, plus a 2-sample window
exercising the insufficient-data branch. -/
theorem prediction_structure_witness :
    ((predict_future_performance "execution_time" tenFours 2).predicted_values.length = 2
     ∧ (∀ h, h < 2 →
        (predict_future_performance "execution_time" tenFours 2).predicted_values.getD h (0, 0)
          = (h + 1, pyMean (lastN (min 10 tenFours.length) tenFours)
              + _calculate_slope
                  ((List.range (lastN 5 tenFours).length).map (fun i => (i : ℚ)))
                  (lastN 5 tenFours) * ((h + 1 : Nat) : ℚ)))
     ∧ (predict_future_performance "execution_time" tenFours 2).confidence_interval
        = (((pyMean (lastN (min 10 tenFours.length) tenFours) : ℚ) : ℝ)
              - 1.96 * stdDev tenFours,
           ((pyMean (lastN (min 10 tenFours.length) tenFours) : ℚ) : ℝ)
              + 1.96 * stdDev tenFours))
    ∧ ((predict_future_performance "throughput" [1, 2] 3).predicted_values = []
       ∧ "历史数据不足" ∈ (predict_future_performance "throughput" [1, 2] 3).risk_factors) :=
  ⟨(prediction_structure "execution_time" tenFours 2).2 (by decide),
   (prediction_structure "throughput" [1, 2] 3).1 (by decide)⟩

/-- C9 counterexample: a 2-sample window whose earliest sample is 0 makes
the change-rate expression `(values[-1] - values[0]) / values[0] * 100`
divide by zero — `analyze_performance_trends` raises (embedded as `none`)
instead of returning a statistics result. -/
theorem analyze_zero_head_raises : analyze_performance_trends [0, 5] = none := by
  unfold analyze_performance_trends
  rw [if_neg (by decide), if_pos (by decide)]

/-- C9 (amended): for every window of at least 2 samples whose earliest
sample is nonzero, analyze_performance_trends totally returns the full
statistics result — mean, median, stddev, min/max, change rate and
stability score — without raising. -/
theorem analyze_total_on_nonzero_head (values : List ℚ) (h2 : 2 ≤ values.length)
    (h0 : values.headI ≠ 0) :
    ∃ s : TrendStats, analyze_performance_trends values = some (.stats s)
      ∧ s.mean = pyMean values
      ∧ s.median = pyMedian values
      ∧ s.std_dev = stdDev values
      ∧ s.min = pyMin values
      ∧ s.max = pyMax values
      ∧ s.change_rate_percent
          = (values.getLastD 0 - values.headI) / values.headI * 100
      ∧ s.stability_score = _calculate_stability_score values := by
  unfold analyze_performance_trends
  rw [if_neg (by omega), if_neg h0]
  refine ⟨_, rfl, rfl, rfl, ?_, rfl, rfl, rfl, rfl⟩
  show (if 1 < values.length then stdDev values else 0) = stdDev values
  rw [if_pos (by omega)]

/-- C9 witness: the window [1, 3]. -/
theorem analyze_total_on_nonzero_head_witness :
    ∃ s : TrendStats, analyze_performance_trends [1, 3] = some (.stats s)
      ∧ s.mean = pyMean [1, 3]
      ∧ s.median = pyMedian [1, 3]
      ∧ s.std_dev = stdDev [1, 3]
      ∧ s.min = pyMin [1, 3]
      ∧ s.max = pyMax [1, 3]
      ∧ s.change_rate_percent
          = (([1, 3] : List ℚ).getLastD 0 - ([1, 3] : List ℚ).headI)
              / ([1, 3] : List ℚ).headI * 100
      ∧ s.stability_score = _calculate_stability_score [1, 3] :=
  analyze_total_on_nonzero_head [1, 3] (by decide) (by decide)
